import Mathlib

/-!
Verification of the nativescript-tasks core (src/unnamed/part_001, the
TypeScript source of index.ts; src/unnamed/part_000 is its compiled ES5
output).  The Task lifecycle state machine, the property-change update
helpers, the textual function decomposition performed by Task.start and
the worker round trip are embedded as executable Lean definitions and the
specification claims are settled against them.
-/

deriving instance DecidableEq for Except

namespace NSTasks

/-- The TaskStatus enum of index.ts (numeric values 0..4 in source order). -/
inductive TaskStatus
  | Created
  | Faulted
  | RanToCompletion
  | Running
  | WaitingToRun
deriving DecidableEq

/-- The reverse enum lookup TaskStatus[n] used in the state-conflict message. -/
def TaskStatus.name : TaskStatus → String
  | .Created => "Created"
  | .Faulted => "Faulted"
  | .RanToCompletion => "RanToCompletion"
  | .Running => "Running"
  | .WaitingToRun => "WaitingToRun"

/-- JavaScript values as far as the claims need them.  JS numbers are used
only at integer points by the verified scenarios, so they are modelled as
integers.  Error objects carry an allocation id so that distinct
allocations of structurally equal errors stay distinguishable, mirroring
reference semantics of strict (in)equality on objects. -/
inductive JSVal
  | undefined
  | null
  | bool (b : Bool)
  | num (n : Int)
  | str (s : String)
  | err (id : Nat) (msg : String)
deriving DecidableEq

/-- JavaScript truthiness of a value. -/
def JSVal.truthy : JSVal → Bool
  | .undefined => false
  | .null => false
  | .bool b => b
  | .num n => n != 0
  | .str s => s != ""
  | .err _ _ => true

/-- A function value as Task.start consumes it: only its source text
(obtained in the source via the string coercion of _FUNC) is ever used on
the Task side. -/
structure FuncVal where
  src : String
deriving DecidableEq

/-- The mutable fields of a Task instance: _FUNC, _error and _status.
Before the constructor runs updateStatus, _status is the JS undefined,
modelled as none; _error starts as undefined. -/
structure TaskState where
  func : Option FuncVal
  error : JSVal
  status : Option TaskStatus
deriving DecidableEq

/-- A notifyPropertyChange event for the observable "status" or "error"
property. -/
inductive Notif
  | statusChange (v : TaskStatus)
  | errorChange (v : JSVal)
deriving DecidableEq

/-- Result of updateStatus / updateError: the new field values, the
notifications raised and the boolean the method returns. -/
structure UpdateResult where
  task : TaskState
  notifs : List Notif
  raised : Bool
deriving DecidableEq

/-- Task.prototype.updateStatus: assigns and notifies exactly when the new
value differs (JS strict inequality) from the stored one. -/
def updateStatus (t : TaskState) (v : TaskStatus) : UpdateResult :=
  if some v ≠ t.status then
    ⟨⟨t.func, t.error, some v⟩, [.statusChange v], true⟩
  else
    ⟨t, [], false⟩

/-- Task.prototype.updateError: assigns and notifies exactly when the new
value differs (JS strict inequality) from the stored one. -/
def updateError (t : TaskState) (v : JSVal) : UpdateResult :=
  if v ≠ t.error then
    ⟨⟨t.func, v, t.status⟩, [.errorChange v], true⟩
  else
    ⟨t, [], false⟩

/-- The argument supplied to the Task constructor: absent (null or
undefined), a function value, or a present non-function value. -/
inductive FuncArg
  | missing
  | fn (f : FuncVal)
  | nonFn (v : JSVal)

/-- Result of a successful Task construction. -/
structure MkTaskResult where
  task : TaskState
  notifs : List Notif
deriving DecidableEq

/-- The Task constructor: throws the string message when the argument is
present but not a function; otherwise stores the function and runs
updateStatus(Created) on the fresh instance. -/
def mkTask : FuncArg → Except String MkTaskResult
  | .nonFn _ => .error "\x27func\x27 must be a function!"
  | .missing =>
    let u := updateStatus ⟨none, .undefined, none⟩ .Created
    .ok ⟨u.task, u.notifs⟩
  | .fn f =>
    let u := updateStatus ⟨some f, .undefined, none⟩ .Created
    .ok ⟨u.task, u.notifs⟩

/-- The newTask entry point (index.ts): just the constructor. -/
def newTask (arg : FuncArg) : Except String MkTaskResult := mkTask arg

/-! ## Function decomposition (Task.start, lines 343-361 of the TS source)

The body is taken by the regular expression match
funcStr.match(of the pattern: the literal word function, one or more
non-left-brace characters, a left brace, a greedy capture of anything,
then a right brace at the end of the string) at group 1; the parameter
list by the humbletim pipeline of replace/split/filter calls.  Each regex
is hand-compiled to an executable character-list scan with the same
matching semantics on the shapes at issue. -/

/-- Does the character list begin with the literal word function? -/
def startsWithFunction : List Char → Bool
  | 'f' :: 'u' :: 'n' :: 'c' :: 't' :: 'i' :: 'o' :: 'n' :: _ => true
  | _ => false

/-- Drops the first eight characters (the length of the word function). -/
def dropFunctionWord (cs : List Char) : List Char := cs.drop 8

/-- After at least one non-left-brace character, consume up to and
including the first left brace; fails if the very next character is a
left brace (the one-or-more quantifier) or no left brace follows. -/
def consumeNonBraceRun : List Char → Option (List Char)
  | [] => none
  | c :: rest => if c = '\x7b' then some rest else consumeNonBraceRun rest

/-- The header part of the body regex at one candidate position: one or
more non-left-brace characters followed by a left brace; returns the
suffix after that brace. -/
def consumeHeader : List Char → Option (List Char)
  | [] => none
  | c :: rest => if c = '\x7b' then none else consumeNonBraceRun rest

/-- Leftmost-match search of the body regex: find the first occurrence of
the word function whose header completes; the regex engine retries at
later positions when the one-or-more quantifier fails. -/
def afterFunctionHeader : List Char → Option (List Char)
  | [] => none
  | c :: rest =>
    if startsWithFunction (c :: rest) then
      match consumeHeader (dropFunctionWord (c :: rest)) with
      | some tail => some tail
      | none => afterFunctionHeader rest
    else afterFunctionHeader rest

/-- The full body match: the greedy capture runs to the final right brace,
which the anchored pattern requires to be the last character of the
source; returns the captured group (everything strictly between the
opening brace of the header and that final brace), or none when the
source does not match (in which case Task.start dereferences group 1 of
null and throws). -/
def matchFuncBody (s : String) : Option String :=
  match afterFunctionHeader s.toList with
  | none => none
  | some tail =>
    match tail.getLast? with
    | some c => if c = '\x7d' then some (String.mk tail.dropLast) else none
    | none => none

/-- Strip single-line comments: each occurrence of two slashes removes
everything up to (excluding) the next newline, per the multiline
end-of-line anchor.  The flag records being inside a comment. -/
def stripLineCommentsAux : Bool → List Char → List Char
  | _, [] => []
  | true, c :: rest =>
    if c = '\n' then c :: stripLineCommentsAux false rest
    else stripLineCommentsAux true rest
  | false, '/' :: '/' :: rest2 => stripLineCommentsAux true rest2
  | false, c :: rest => c :: stripLineCommentsAux false rest

def stripLineComments (cs : List Char) : List Char := stripLineCommentsAux false cs

/-- Strip all whitespace (the second replace of the pipeline). -/
def stripAllWhitespace (cs : List Char) : List Char :=
  cs.filter (fun c => ¬ c.isWhitespace)

/-- Attempt to close a block comment: zero or more characters that are
neither slash nor star, then star slash; returns the suffix after the
close, or none when the pattern cannot match from here. -/
def tryCloseBlock : List Char → Option (List Char)
  | [] => none
  | '*' :: '/' :: rest => some rest
  | '*' :: _ => none
  | '/' :: _ => none
  | _ :: rest => tryCloseBlock rest

/-- Strip block comments, fuelled global scan: on slash star, try to
close; on failure the engine moves on by one character. -/
def stripBlockCommentsAux : Nat → List Char → List Char
  | 0, cs => cs
  | _ + 1, [] => []
  | fuel + 1, '/' :: '*' :: rest =>
    (match tryCloseBlock rest with
     | some rest2 => stripBlockCommentsAux fuel rest2
     | none => '/' :: stripBlockCommentsAux fuel ('*' :: rest))
  | fuel + 1, c :: rest => c :: stripBlockCommentsAux fuel rest

def stripBlockComments (cs : List Char) : List Char :=
  stripBlockCommentsAux cs.length cs

/-- The split on the two-character right-paren left-brace marker with
limit one: keep the prefix strictly before its first occurrence, or the
whole string when the marker is absent. -/
def takeBeforeParenBrace : List Char → List Char
  | [] => []
  | ')' :: '\x7b' :: _ => []
  | c :: rest => c :: takeBeforeParenBrace rest

/-- The anchored replace that removes everything up to and including the
first left parenthesis; when no parenthesis occurs the regex does not
match and the string is unchanged. -/
def dropThroughParen (cs : List Char) : List Char :=
  match cs.dropWhile (fun c => c ≠ '(') with
  | [] => cs
  | _ :: rest => rest

/-- Strip ES6 defaults: each equals sign followed by one or more
non-comma characters is removed (the run is maximal, so it stops at the
first comma, truncating defaults that contain commas). -/
def stripDefaultsAux : Nat → List Char → List Char
  | 0, cs => cs
  | _ + 1, [] => []
  | fuel + 1, '=' :: rest =>
    (match rest with
     | [] => ['=']
     | c :: _ =>
       if c = ',' then '=' :: stripDefaultsAux fuel rest
       else stripDefaultsAux fuel (rest.dropWhile (fun d => d ≠ ',')))
  | fuel + 1, c :: rest => c :: stripDefaultsAux fuel rest

def stripDefaults (cs : List Char) : List Char := stripDefaultsAux cs.length cs

/-- Split on commas, producing one piece per comma-separated segment
(empty pieces included, as the JS split does). -/
def splitCommaAux (acc : List Char) : List Char → List String
  | [] => [String.mk acc.reverse]
  | ',' :: rest => String.mk acc.reverse :: splitCommaAux [] rest
  | c :: rest => splitCommaAux (c :: acc) rest

/-- func.args of Task.start: the complete humbletim pipeline in source
order, ending with the filter that discards empty tokens. -/
def extractArgs (s : String) : List String :=
  let cs := stripLineComments s.toList
  let cs := stripAllWhitespace cs
  let cs := stripBlockComments cs
  let cs := takeBeforeParenBrace cs
  let cs := dropThroughParen cs
  let cs := stripDefaults cs
  (splitCommaAux [] cs).filter (fun x => x ≠ "")

/-! ## JSON serialization of scalar values

JSON.stringify / JSON.parse are host builtins; they are modelled for the
scalar values that cross the worker boundary in the verified scenarios.
Stringifying undefined yields no string at all (none); an Error object
serializes to an empty object literal, having no enumerable properties. -/

/-- Escape backslashes and double quotes for a JSON string literal. -/
def jsonEscape (s : String) : String :=
  String.mk (s.toList.foldr
    (fun c acc => if c = '"' ∨ c = '\\' then '\\' :: c :: acc else c :: acc) [])

def jsonStringify : JSVal → Option String
  | .undefined => none
  | .null => some "null"
  | .bool true => some "true"
  | .bool false => some "false"
  | .num n => some (toString n)
  | .str s => some ("\"" ++ jsonEscape s ++ "\"")
  | .err _ _ => some "\x7b\x7d"

/-- Undo the escaping inside a JSON string literal. -/
def jsonUnescape : List Char → List Char
  | [] => []
  | '\\' :: c :: rest => c :: jsonUnescape rest
  | c :: rest => c :: jsonUnescape rest

/-- Value of a list of decimal digit characters. -/
def digitsVal (ds : List Char) : Int :=
  Int.ofNat (ds.foldl (fun a c => a * 10 + (c.toNat - 48)) 0)

/-- Trim surrounding whitespace of a character list. -/
def trimChars (cs : List Char) : List Char :=
  ((cs.dropWhile Char.isWhitespace).reverse.dropWhile Char.isWhitespace).reverse

/-- Decimal integer literal, with optional leading minus sign. -/
def parseIntChars : List Char → Option Int
  | [] => none
  | '-' :: ds =>
    if ds ≠ [] ∧ ds.all Char.isDigit then some (-(digitsVal ds)) else none
  | ds => if ds.all Char.isDigit then some (digitsVal ds) else none

/-- JSON.parse on the scalar forms the verified payloads take; none for
text outside the modelled fragment (where the builtin would throw). -/
def jsonParse (s : String) : Option JSVal :=
  let t := trimChars s.toList
  if t = "null".toList then some .null
  else if t = "true".toList then some (.bool true)
  else if t = "false".toList then some (.bool false)
  else
    match t with
    | '"' :: rest =>
      (match rest.getLast? with
       | some '"' => some (.str (String.mk (jsonUnescape rest.dropLast)))
       | _ => none)
    | _ => (parseIntChars t).map .num

/-! ## The worker side

Modelled from the spec: plugin/worker.js is not under src/.  Section 4.3
of the specification: inside the isolated context, reconstruct a callable
from body and parameterNames (a function literal with those parameters
and that body), invoke it with a single context argument carrying the
submitted state, serialize the return value and post it back; any
exception during reconstruction or invocation goes to the failure
callback; an absent func is a no-op yielding an empty success payload.
Evaluation of the reconstructed JavaScript body is modelled for the
fragment the verified scenarios exercise: a single return statement over
integer literals, addition, multiplication and property access on the
context parameter.  Outside that fragment the model reports an error,
standing for the exception the isolated context would report. -/

/-- Token alphabet of the modelled JavaScript fragment. -/
inductive Tok
  | tnum (n : Int)
  | tid (s : String)
  | tdot
  | tplus
  | tstar
  | tsemi
deriving DecidableEq

def isIdentStart (c : Char) : Bool := c.isAlpha ∨ c = '_' ∨ c = '$'

def isIdentChar (c : Char) : Bool := c.isAlphanum ∨ c = '_' ∨ c = '$'

/-- Fuelled tokenizer; the fuel is the character count, each step consumes
at least one character. -/
def tokenizeAux : Nat → List Char → Except String (List Tok)
  | 0, _ => .error "SyntaxError"
  | _ + 1, [] => .ok []
  | fuel + 1, c :: cs =>
    if c.isWhitespace then tokenizeAux fuel cs
    else if c.isDigit then
      (tokenizeAux fuel ((c :: cs).dropWhile Char.isDigit)).map
        (fun ts => .tnum (digitsVal ((c :: cs).takeWhile Char.isDigit)) :: ts)
    else if isIdentStart c then
      (tokenizeAux fuel ((c :: cs).dropWhile isIdentChar)).map
        (fun ts => .tid (String.mk ((c :: cs).takeWhile isIdentChar)) :: ts)
    else if c = '.' then (tokenizeAux fuel cs).map (fun ts => .tdot :: ts)
    else if c = '+' then (tokenizeAux fuel cs).map (fun ts => .tplus :: ts)
    else if c = '*' then (tokenizeAux fuel cs).map (fun ts => .tstar :: ts)
    else if c = ';' then (tokenizeAux fuel cs).map (fun ts => .tsemi :: ts)
    else .error "SyntaxError"

def tokenize (s : String) : Except String (List Tok) :=
  tokenizeAux (s.length + 1) s.toList

/-- Values during evaluation: the context object bound to the first
parameter, or a plain JavaScript value. -/
inductive EvalVal
  | ctxObj (st : JSVal)
  | plain (v : JSVal)
deriving DecidableEq

/-- Property access: the context object exposes its state member, other
members are undefined; access on undefined or null throws. -/
def evalField : EvalVal → String → Except String EvalVal
  | .ctxObj st, f => if f = "state" then .ok (.plain st) else .ok (.plain .undefined)
  | .plain .undefined, _ => .error "TypeError"
  | .plain .null, _ => .error "TypeError"
  | .plain _, _ => .ok (.plain .undefined)

/-- Consume a chain of dot-member accesses after an atom. -/
def parseFields : Nat → EvalVal → List Tok → Except String (EvalVal × List Tok)
  | 0, _, _ => .error "SyntaxError"
  | fuel + 1, v, .tdot :: .tid f :: rest =>
    (match evalField v f with
     | .ok v2 => parseFields fuel v2 rest
     | .error e => .error e)
  | _ + 1, v, ts => .ok (v, ts)

/-- An atom: an integer literal, or an identifier (a parameter of the
reconstructed function; the first parameter is bound to the context
object, the rest to undefined; anything unbound throws) followed by
member accesses. -/
def parseAtom (fuel : Nat) (ps : List String) (st : JSVal) :
    List Tok → Except String (EvalVal × List Tok)
  | .tnum n :: rest => .ok (.plain (.num n), rest)
  | .tid x :: rest =>
    if ps.head? = some x then parseFields fuel (.ctxObj st) rest
    else if ps.contains x then parseFields fuel (.plain .undefined) rest
    else .error "ReferenceError"
  | _ => .error "SyntaxError"

def toNumVal : EvalVal → Except String Int
  | .plain (.num n) => .ok n
  | _ => .error "TypeError"

/-- Products of atoms. -/
def parseTermLoop (ps : List String) (st : JSVal) :
    Nat → EvalVal → List Tok → Except String (EvalVal × List Tok)
  | 0, _, _ => .error "SyntaxError"
  | fuel + 1, acc, .tstar :: rest =>
    (match parseAtom fuel ps st rest with
     | .error e => .error e
     | .ok (b, rest2) =>
       match toNumVal acc, toNumVal b with
       | .ok x, .ok y => parseTermLoop ps st fuel (.plain (.num (x * y))) rest2
       | _, _ => .error "TypeError")
  | _ + 1, acc, ts => .ok (acc, ts)

def parseTerm (fuel : Nat) (ps : List String) (st : JSVal) (ts : List Tok) :
    Except String (EvalVal × List Tok) :=
  match parseAtom fuel ps st ts with
  | .error e => .error e
  | .ok (a, rest) => parseTermLoop ps st fuel a rest

/-- Sums of products. -/
def parseSumLoop (ps : List String) (st : JSVal) :
    Nat → EvalVal → List Tok → Except String (EvalVal × List Tok)
  | 0, _, _ => .error "SyntaxError"
  | fuel + 1, acc, .tplus :: rest =>
    (match parseTerm fuel ps st rest with
     | .error e => .error e
     | .ok (b, rest2) =>
       match toNumVal acc, toNumVal b with
       | .ok x, .ok y => parseSumLoop ps st fuel (.plain (.num (x + y))) rest2
       | _, _ => .error "TypeError")
  | _ + 1, acc, ts => .ok (acc, ts)

def parseSum (fuel : Nat) (ps : List String) (st : JSVal) (ts : List Tok) :
    Except String (EvalVal × List Tok) :=
  match parseTerm fuel ps st ts with
  | .error e => .error e
  | .ok (a, rest) => parseSumLoop ps st fuel a rest

def evalValToJS : EvalVal → Except String JSVal
  | .plain v => .ok v
  | .ctxObj _ => .error "unsupported"

/-- Modelled from the spec: reconstruct a callable from the decomposed
body and parameter names and invoke it with the context argument carrying
the submitted state (section 4.3).  An empty body returns undefined; a
single return statement is evaluated; anything else reports an error, as
the isolated context posts exceptions through the failure callback. -/
def invokeReconstructed (ps : List String) (body : String) (st : JSVal) :
    Except String JSVal :=
  match tokenize body with
  | .error e => .error e
  | .ok [] => .ok .undefined
  | .ok (.tid r :: rest) =>
    if r = "return" then
      match parseSum (2 * rest.length + 8) ps st rest with
      | .error e => .error e
      | .ok (v, remaining) =>
        match remaining with
        | [] => evalValToJS v
        | [.tsemi] => evalValToJS v
        | _ => .error "SyntaxError"
    else .error "SyntaxError"
  | .ok _ => .error "SyntaxError"

/-! ## Task.start

start(state) is asynchronous: it settles either synchronously (the
state-conflict guard and the catch block around decomposition) or from
one of the two worker callbacks.  The embedding splits the call at its
single suspension point: phase one runs the body of the promise executor
up to postMessage, phase two runs the worker callback that fires.  Fresh
Error allocations inside one call are given object identities from the
seed parameter. -/

/-- The func member of the wire message: the decomposed body and
parameter names posted to the worker. -/
structure WireFunc where
  body : String
  args : List String
deriving DecidableEq

/-- The single response of the worker channel: a message event carrying
msg.data (a string, or nothing), or an error event. -/
inductive WorkerResponse
  | message (payload : Option String)
  | failure (e : JSVal)
deriving DecidableEq

def WorkerResponse.isMessage : WorkerResponse → Bool
  | .message _ => true
  | .failure _ => false

/-- Realistic worker responses: an error event is a truthy object.  (The
completed helper branches on truthiness of its error argument, so a falsy
error value would resolve instead.) -/
def WorkerResponse.wf : WorkerResponse → Prop
  | .message _ => True
  | .failure e => e.truthy = true

/-- How the promise of one start call settles: the resolved data/state
envelope or the rejected error/state envelope. -/
inductive Settlement
  | resolved (data : JSVal) (state : JSVal)
  | rejected (error : JSVal) (state : JSVal)
deriving DecidableEq

/-- Everything observable about one start call: the settlement, the final
task fields, the property-change notifications in order, whether a worker
channel was constructed, and whether terminate was called on it. -/
structure StartOutcome where
  settled : Settlement
  final : TaskState
  notifs : List Notif
  channelCreated : Bool
  terminated : Bool
deriving DecidableEq

/-- The completed closure of start: rejects with the error/state envelope
when err is truthy, otherwise resolves with the data/state envelope, and
in both cases runs updateError(err). -/
def completed (t : TaskState) (state : JSVal) (e : JSVal) (data : JSVal) :
    Settlement × UpdateResult :=
  if e.truthy then (.rejected e state, updateError t e)
  else (.resolved data state, updateError t e)

/-- The switch guard of start: fall through (and proceed) exactly for
Created, Faulted and RanToCompletion; every other stored value (Running,
WaitingToRun, or an unset field) takes the default branch. -/
def canStart : Option TaskStatus → Bool
  | some .Created => true
  | some .Faulted => true
  | some .RanToCompletion => true
  | _ => false

/-- The reverse enum lookup interpolated into the state-conflict message;
an unset status field would interpolate as undefined. -/
def statusKeyName : Option TaskStatus → String
  | some s => s.name
  | none => "undefined"

/-- The state-conflict Error of the guard branch. -/
def conflictError (seed : Nat) (st : Option TaskStatus) : JSVal :=
  .err seed ("Cannot start while in \x27" ++ statusKeyName st ++ "\x27 state!")

/-- Result of phase one: the call either settled before postMessage, or
dispatched a message (the optional decomposed function plus the state)
and now awaits the worker response. -/
inductive Phase1Result
  | settledEarly (o : StartOutcome)
  | dispatched (t : TaskState) (ns : List Notif) (msg : Option WireFunc)
deriving DecidableEq

/-- The promise executor of start up to its suspension point.  Guard
branch: completed with a fresh state-conflict Error, no status change, no
channel.  Otherwise: updateStatus(WaitingToRun), construct the worker,
install the two callbacks, decompose _FUNC when present (the failed body
match makes the group-1 dereference throw a TypeError, landing in the
catch block: updateStatus(Faulted) then completed), updateStatus(Running)
and post the message. -/
def startPhase1 (t : TaskState) (state : JSVal) (seed : Nat) : Phase1Result :=
  if canStart t.status then
    let u1 := updateStatus t .WaitingToRun
    match t.func with
    | none =>
      let u2 := updateStatus u1.task .Running
      .dispatched u2.task (u1.notifs ++ u2.notifs) none
    | some f =>
      match matchFuncBody f.src with
      | none =>
        let u2 := updateStatus u1.task .Faulted
        let e := JSVal.err seed "TypeError"
        let r := completed u2.task state e .undefined
        .settledEarly ⟨r.1, r.2.task, u1.notifs ++ u2.notifs ++ r.2.notifs, true, false⟩
      | some body =>
        let u2 := updateStatus u1.task .Running
        .dispatched u2.task (u1.notifs ++ u2.notifs) (some ⟨body, extractArgs f.src⟩)
  else
    let e := conflictError seed t.status
    let r := completed t state e .undefined
    .settledEarly ⟨r.1, r.2.task, r.2.notifs, false, false⟩

/-- The onmessage handling of msg.data: a truthy (nonempty) payload is
passed to JSON.parse, a falsy one is kept raw (the empty string stays the
empty string, an absent payload stays undefined).  The model is total
where JSON.parse on a malformed nonempty payload would throw out of the
handler. -/
def onMessageResult : Option String → JSVal
  | none => .undefined
  | some s => if s = "" then .str "" else (jsonParse s).getD .undefined

/-- The worker callback that fires.  onmessage: terminate the channel,
parse the payload, updateStatus(RanToCompletion), completed(null, data).
onerror: updateStatus(Faulted), completed(err) — no terminate call. -/
def startPhase2 (t : TaskState) (state : JSVal) (ns : List Notif)
    (resp : WorkerResponse) : StartOutcome :=
  match resp with
  | .message payload =>
    let data := onMessageResult payload
    let u2 := updateStatus t .RanToCompletion
    let r := completed u2.task state .null data
    ⟨r.1, r.2.task, ns ++ u2.notifs ++ r.2.notifs, true, true⟩
  | .failure e =>
    let u2 := updateStatus t .Faulted
    let r := completed u2.task state e .undefined
    ⟨r.1, r.2.task, ns ++ u2.notifs ++ r.2.notifs, true, false⟩

/-- One complete start call, the worker response supplied as an input. -/
def start (t : TaskState) (state : JSVal) (seed : Nat) (resp : WorkerResponse) :
    StartOutcome :=
  match startPhase1 t state seed with
  | .settledEarly o => o
  | .dispatched t2 ns _ => startPhase2 t2 state ns resp

/-- Modelled from the spec: the response of the worker script
(plugin/worker.js is not under src/), per section 4.3.  An absent func is
a no-op yielding an empty success payload; otherwise the reconstructed
callable is invoked with the context argument and its serialized return
value is posted back, exceptions going to the failure callback. -/
def workerRun (msg : Option WireFunc) (state : JSVal) : WorkerResponse :=
  match msg with
  | none => .message none
  | some wf =>
    match invokeReconstructed wf.args wf.body state with
    | .ok v => .message (jsonStringify v)
    | .error e => .failure (.err 0 e)

/-- One complete start call against the spec-modelled worker. -/
def startWithWorker (t : TaskState) (state : JSVal) (seed : Nat) : StartOutcome :=
  match startPhase1 t state seed with
  | .settledEarly o => o
  | .dispatched t2 ns msg => startPhase2 t2 state ns (workerRun msg state)

/-- The startNew entry point (index.ts): newTask(func).start(state). -/
def startNew (arg : FuncArg) (state : JSVal) (seed : Nat) :
    Except String StartOutcome :=
  match newTask arg with
  | .error e => .error e
  | .ok r => .ok (startWithWorker r.task state seed)

/-- Whether the decomposition step of start succeeds on the held
function: vacuously when no function is held, else when the body regex
matches its source. -/
def decomposeOk (t : TaskState) : Bool :=
  match t.func with
  | none => true
  | some f => (matchFuncBody f.src).isSome

/-- The settlement of a startNew result, when construction succeeded. -/
def settledOf : Except String StartOutcome → Option Settlement
  | .ok o => some o.settled
  | .error _ => none

/-- The source text of the demo computation of section 8 of the
specification, in the form the repository actually runs: the package is
compiled to ES5 (src/unnamed/part_000 and src/demo/app/app.js are that
compiled output), where the arrow literal becomes a function expression,
which is the source text the string coercion in Task.start sees. -/
def demoFuncSrc : String :=
  "function (ctx) \x7b return 1000 + 200 * ctx.state + 7; \x7d"

/-- The round-trip source of section 8 of the specification. -/
def roundTripSrc : String := "function(ctx)\x7b return ctx.state + 1; \x7d"

/-- A function source whose parameter default expression contains a
comma. -/
def defaultParamSrc : String := "function (a = f(1,2), b) \x7b return 0; \x7d"

/-! ## Helper lemmas on the update functions -/

theorem updateStatus_task_status (t : TaskState) (s : TaskStatus) :
    (updateStatus t s).task.status = some s := by
  unfold updateStatus
  split
  · rfl
  · next h => rw [not_not] at h; exact h.symm

theorem updateStatus_task_error (t : TaskState) (s : TaskStatus) :
    (updateStatus t s).task.error = t.error := by
  unfold updateStatus; split <;> rfl

theorem updateStatus_task_func (t : TaskState) (s : TaskStatus) :
    (updateStatus t s).task.func = t.func := by
  unfold updateStatus; split <;> rfl

theorem updateError_task_error (t : TaskState) (v : JSVal) :
    (updateError t v).task.error = v := by
  unfold updateError
  split
  · rfl
  · next h => rw [not_not] at h; exact h.symm

theorem updateError_task_status (t : TaskState) (v : JSVal) :
    (updateError t v).task.status = t.status := by
  unfold updateError; split <;> rfl

theorem updateError_task_func (t : TaskState) (v : JSVal) :
    (updateError t v).task.func = t.func := by
  unfold updateError; split <;> rfl

/-- Both branches of the completed closure call updateError with the same
error argument. -/
theorem completed_snd (t : TaskState) (state e data : JSVal) :
    (completed t state e data).2 = updateError t e := by
  unfold completed; split <;> rfl

/-! ## Claims -/

/-- Claim C1: for every Task whose current status is WaitingToRun or
Running, start(state) settles immediately as rejected with the
state-conflict Error in an error/state envelope, leaves the status
unchanged, and creates no worker channel. -/
theorem start_guard_rejects (t : TaskState) (state : JSVal) (seed : Nat)
    (resp : WorkerResponse)
    (h : t.status = some .WaitingToRun ∨ t.status = some .Running) :
    (start t state seed resp).settled = .rejected (conflictError seed t.status) state
    ∧ (start t state seed resp).final.status = t.status
    ∧ (start t state seed resp).channelCreated = false := by
  have hc : canStart t.status = false := by
    rcases h with h | h <;> rw [h] <;> rfl
  simp [start, startPhase1, hc, completed, conflictError, JSVal.truthy,
    updateError_task_status]

/-- Claim C1 witness: the guard at a concrete Running task. -/
theorem start_guard_rejects_witness :
    (start ⟨none, .undefined, some .Running⟩ (.num 1) 0 (.message none)).channelCreated = false
    ∧ (start ⟨none, .undefined, some .Running⟩ (.num 1) 0 (.message none)).final.status
        = some .Running :=
  ⟨(start_guard_rejects ⟨none, .undefined, some .Running⟩ (.num 1) 0 (.message none)
      (Or.inr rfl)).2.2,
   (start_guard_rejects ⟨none, .undefined, some .Running⟩ (.num 1) 0 (.message none)
      (Or.inr rfl)).2.1⟩

/-- Claim C2 counterexample: a second start on a (reachable) Running task
sets the error property through the guard rejection while the status
never transitions to Faulted (the only notification of the call is the
error change and the final status is still Running), so the error is not
set exactly on transitions to Faulted. -/
theorem start_sets_error_without_fault_cex :
    startPhase1 ⟨none, .undefined, some .Created⟩ (.num 0) 0 =
      .dispatched ⟨none, .undefined, some .Running⟩
        [.statusChange .WaitingToRun, .statusChange .Running] none
    ∧ start ⟨none, .undefined, some .Running⟩ (.num 0) 1 (.message none) =
      ⟨.rejected (.err 1 "Cannot start while in \x27Running\x27 state!") (.num 0),
       ⟨none, .err 1 "Cannot start while in \x27Running\x27 state!", some .Running⟩,
       [.errorChange (.err 1 "Cannot start while in \x27Running\x27 state!")],
       false, false⟩ := by decide

/-- Claim C2 as amended: after any start call with a realistic worker
response settles, the stored error equals null when the call resolved and
equals the rejection error when it rejected — so it is set on Faulted
transitions and on state-conflict guard rejections alike, and cleared (to
null) exactly by a successful call. -/
theorem start_error_matches_settlement (t : TaskState) (state : JSVal)
    (seed : Nat) (resp : WorkerResponse) (h : resp.wf) :
    (start t state seed resp).final.error =
      (match (start t state seed resp).settled with
       | .resolved _ _ => JSVal.null
       | .rejected e _ => e) := by
  unfold start startPhase1 startPhase2 completed
  by_cases hc : canStart t.status = true
  · rcases hf : t.func with _ | f
    · rcases resp with payload | e
      · simp [hc, hf, JSVal.truthy, updateError_task_error]
      · have he : e.truthy = true := h
        simp [hc, hf, he, updateError_task_error]
    · rcases hm : matchFuncBody f.src with _ | body
      · simp [hc, hf, hm, JSVal.truthy, updateError_task_error]
      · rcases resp with payload | e
        · simp [hc, hf, hm, JSVal.truthy, updateError_task_error]
        · have he : e.truthy = true := h
          simp [hc, hf, hm, he, updateError_task_error]
  · simp [hc, conflictError, JSVal.truthy, updateError_task_error]

/-- Claim C2 witness: the amended statement at a concrete successful
call. -/
theorem start_error_matches_settlement_witness :
    (start ⟨none, .undefined, some .Created⟩ (.num 2) 0 (.message (some "7"))).final.error
      = (match (start ⟨none, .undefined, some .Created⟩ (.num 2) 0
            (.message (some "7"))).settled with
         | .resolved _ _ => JSVal.null
         | .rejected e _ => e) :=
  start_error_matches_settlement ⟨none, .undefined, some .Created⟩ (.num 2) 0
    (.message (some "7")) trivial

/-- Claim C3 counterexample: a start call that creates a worker channel
and receives the failure response does not terminate the channel (only
the onmessage handler calls terminate). -/
theorem start_failure_no_terminate_cex :
    (start ⟨none, .undefined, some .Created⟩ (.num 0) 0 (.failure (.err 5 "boom"))).channelCreated
      = true
    ∧ (start ⟨none, .undefined, some .Created⟩ (.num 0) 0 (.failure (.err 5 "boom"))).terminated
      = false := by decide

/-- Claim C3 as amended: for every start call that passes the guard (and
hence creates a worker channel), the channel is terminated exactly when
the dispatch succeeded and the single response was the success message;
on the failure response (and on a dispatch exception) it is not
terminated. -/
theorem start_terminates_only_on_message (t : TaskState) (state : JSVal)
    (seed : Nat) (resp : WorkerResponse) (h : canStart t.status = true) :
    (start t state seed resp).channelCreated = true
    ∧ (start t state seed resp).terminated = (decomposeOk t && resp.isMessage) := by
  unfold start startPhase1 decomposeOk
  rcases hf : t.func with _ | f
  · cases resp <;> simp [h, hf, startPhase2, WorkerResponse.isMessage]
  · rcases hm : matchFuncBody f.src with _ | body
    · cases resp <;> simp [h, hf, hm, startPhase2, WorkerResponse.isMessage]
    · cases resp <;> simp [h, hf, hm, startPhase2, WorkerResponse.isMessage]

/-- Claim C3 witness: the amended statement at a concrete success
response, where the channel is terminated. -/
theorem start_terminates_only_on_message_witness :
    (start ⟨none, .undefined, some .Created⟩ (.num 0) 0 (.message none)).channelCreated = true
    ∧ (start ⟨none, .undefined, some .Created⟩ (.num 0) 0 (.message none)).terminated
      = (decomposeOk ⟨none, .undefined, some .Created⟩ && (WorkerResponse.message none).isMessage) :=
  start_terminates_only_on_message ⟨none, .undefined, some .Created⟩ (.num 0) 0
    (.message none) rfl

/-- Claim C4 counterexample: createAndStartTask on the demo computation
with input 30 resolves with data 7007 (1000 plus 200 times 30 plus 7),
not 6007 as claimed. -/
theorem startNew_demo_not_6007_cex :
    settledOf (startNew (.fn ⟨demoFuncSrc⟩) (.num 30) 0)
      = some (.resolved (.num 7007) (.num 30))
    ∧ settledOf (startNew (.fn ⟨demoFuncSrc⟩) (.num 30) 0)
      ≠ some (.resolved (.num 6007) (.num 30)) := by decide

/-- Claim C4 as amended: startNew on the demo computation with input 30
resolves with data 7007 and state 30, ending in RanToCompletion with the
error cleared to null. -/
theorem startNew_demo_resolves :
    startNew (.fn ⟨demoFuncSrc⟩) (.num 30) 0 =
      .ok ⟨.resolved (.num 7007) (.num 30),
           ⟨some ⟨demoFuncSrc⟩, .null, some .RanToCompletion⟩,
           [.statusChange .WaitingToRun, .statusChange .Running,
            .statusChange .RanToCompletion, .errorChange .null],
           true, true⟩ := by decide

/-- Claim C5 counterexample: an empty (empty-string) payload is delivered
as the empty string itself in the resolved data field — a present value,
not an absent one. -/
theorem empty_payload_data_not_absent_cex :
    (start ⟨none, .undefined, some .Created⟩ (.num 1) 0 (.message (some ""))).settled
      = .resolved (.str "") (.num 1)
    ∧ JSVal.str "" ≠ .undefined ∧ JSVal.str "" ≠ .null := by decide

/-- Claim C5 as amended: on the success path the raw payload is parsed
into the resolved data/state value; an absent payload yields an absent
(undefined) data value and an empty payload yields the raw empty string;
in neither falsy case is a parse attempted (so no parse failure). -/
theorem start_success_payload_parsing (t : TaskState) (state : JSVal)
    (seed : Nat) (payload : Option String)
    (h1 : canStart t.status = true) (h2 : decomposeOk t = true) :
    (start t state seed (.message payload)).settled
        = .resolved (onMessageResult payload) state
    ∧ onMessageResult none = .undefined
    ∧ onMessageResult (some "") = .str ""
    ∧ ∀ s : String, s ≠ "" → onMessageResult (some s) = (jsonParse s).getD .undefined := by
  refine ⟨?_, rfl, rfl, ?_⟩
  · unfold start startPhase1 startPhase2 completed
    rcases hf : t.func with _ | f
    · simp [h1, hf, JSVal.truthy]
    · rcases hm : matchFuncBody f.src with _ | body
      · simp [decomposeOk, hf, hm] at h2
      · simp [h1, hf, hm, JSVal.truthy]
  · intro s hs
    simp [onMessageResult, hs]

/-- Claim C5 witness: the amended statement at a concrete nonempty
payload. -/
theorem start_success_payload_parsing_witness :
    (start ⟨none, .undefined, some .Created⟩ (.num 1) 0 (.message (some "42"))).settled
      = .resolved (onMessageResult (some "42")) (.num 1)
    ∧ onMessageResult (some "") = .str "" :=
  ⟨(start_success_payload_parsing ⟨none, .undefined, some .Created⟩ (.num 1) 0
      (some "42") rfl rfl).1,
   (start_success_payload_parsing ⟨none, .undefined, some .Created⟩ (.num 1) 0
      (some "42") rfl rfl).2.2.1⟩

/-- Claim C6: the decomposer applied to the round-trip source yields
parameter names ctx alone and the original body, and reconstructing a
function with those parameters and that body and invoking it with state 5
returns 6. -/
theorem decompose_round_trip :
    extractArgs roundTripSrc = ["ctx"]
    ∧ matchFuncBody roundTripSrc = some " return ctx.state + 1; "
    ∧ invokeReconstructed (extractArgs roundTripSrc) " return ctx.state + 1; " (.num 5)
      = .ok (.num 6) := by decide

/-- Claim C7: updateStatus and updateError assign, notify and return true
exactly when the new value differs from the stored one, and otherwise
leave the field unchanged, emit nothing and return false. -/
theorem update_notify_iff (t : TaskState) (s : TaskStatus) (v : JSVal) :
    ((updateStatus t s).raised = true ↔ some s ≠ t.status)
    ∧ ((updateStatus t s).notifs
        = if some s ≠ t.status then [.statusChange s] else [])
    ∧ ((updateStatus t s).task
        = if some s ≠ t.status then ⟨t.func, t.error, some s⟩ else t)
    ∧ ((updateError t v).raised = true ↔ v ≠ t.error)
    ∧ ((updateError t v).notifs
        = if v ≠ t.error then [.errorChange v] else [])
    ∧ ((updateError t v).task
        = if v ≠ t.error then ⟨t.func, v, t.status⟩ else t) := by
  unfold updateStatus updateError
  refine ⟨?_, ?_, ?_, ?_, ?_, ?_⟩ <;> split <;> simp_all

/-- Claim C8: construction throws exactly for a present non-invocable
argument; with a function or an absent argument it succeeds with status
Created and only the construction notification, the stored function is
never mutated by start, and no start-machine state is entered. -/
theorem construction_contract :
    (∀ v, mkTask (.nonFn v) = .error "\x27func\x27 must be a function!")
    ∧ (∀ f, mkTask (.fn f)
        = .ok ⟨⟨some f, .undefined, some .Created⟩, [.statusChange .Created]⟩)
    ∧ mkTask .missing
        = .ok ⟨⟨none, .undefined, some .Created⟩, [.statusChange .Created]⟩
    ∧ (∀ (t : TaskState) (state : JSVal) (seed : Nat) (resp : WorkerResponse),
        (start t state seed resp).final.func = t.func) := by
  refine ⟨fun v => rfl, fun f => rfl, rfl, ?_⟩
  intro t state seed resp
  unfold start startPhase1 startPhase2
  by_cases hc : canStart t.status = true
  · rcases hf : t.func with _ | f
    · rcases resp with payload | e <;>
        simp [hc, hf, completed_snd, updateError_task_func, updateStatus_task_func]
    · rcases hm : matchFuncBody f.src with _ | body
      · simp [hc, hf, hm, completed_snd, updateError_task_func, updateStatus_task_func]
      · rcases resp with payload | e <;>
          simp [hc, hf, hm, completed_snd, updateError_task_func, updateStatus_task_func]
  · simp [hc, completed_snd, updateError_task_func]

/-- Claim C9: on a source whose parameter default contains a comma the
extraction step returns the truncated token list a, 2-with-paren, b
instead of the declared parameter names a, b. -/
theorem extract_args_default_comma :
    extractArgs defaultParamSrc = ["a", "2)", "b"]
    ∧ ["a", "2)", "b"] ≠ ["a", "b"] := by decide

/-- Claim C10: every successful construction emits exactly one status
notification, carrying Created, and the fresh task has status Created and
an absent error. -/
theorem construction_single_created_notification (arg : FuncArg) (r : MkTaskResult)
    (h : mkTask arg = .ok r) :
    r.notifs = [.statusChange .Created]
    ∧ r.task.status = some .Created
    ∧ r.task.error = .undefined := by
  cases arg with
  | missing =>
    simp [mkTask, updateStatus] at h
    subst h
    exact ⟨rfl, rfl, rfl⟩
  | fn f =>
    simp [mkTask, updateStatus] at h
    subst h
    exact ⟨rfl, rfl, rfl⟩
  | nonFn v => simp [mkTask] at h

/-- Claim C10 witness: construction with an absent argument. -/
theorem construction_single_created_notification_witness :
    mkTask .missing
      = .ok ⟨⟨none, .undefined, some .Created⟩, [.statusChange .Created]⟩
    ∧ (MkTaskResult.mk ⟨none, .undefined, some .Created⟩
        [.statusChange .Created]).notifs = [.statusChange .Created] :=
  ⟨rfl, (construction_single_created_notification .missing
      ⟨⟨none, .undefined, some .Created⟩, [.statusChange .Created]⟩ rfl).1⟩

end NSTasks
